import Mathlib

/-!
Shallow embedding of the flight controller in
`src/crazyflie_controller/scripts/controller_no_tf.py`.

Python floating-point values are modelled as rationals (`ℚ`); float rounding
is abstracted away, the arithmetic structure of the code is kept exactly.
ROS side effects are made explicit: published `Twist` messages, `logwarn`
latencies and `logerr` strings become lists returned by each step function.
The wall clock (`rospy.Time.now()` and the clock read inside the PID update)
becomes an explicit `now : ℚ` argument.
-/

namespace Crazyflie

/-- Model of `geometry_msgs` vector with x, y, z components. -/
structure Vec3 where
  x : ℚ
  y : ℚ
  z : ℚ
deriving DecidableEq

/-- Model of a quaternion message (x, y, z, w components). -/
structure Quat where
  x : ℚ
  y : ℚ
  z : ℚ
  w : ℚ
deriving DecidableEq

/-- Model of `geometry_msgs/Pose`: position plus orientation quaternion. -/
structure Pose where
  position : Vec3
  orientation : Quat
deriving DecidableEq

/-- Model of a rigid transform: translation plus rotation quaternion. -/
structure RigidTransform where
  translation : Vec3
  rotation : Quat
deriving DecidableEq

/-- Model of `geometry_msgs/TransformStamped`: the header stamp (seconds, as a
rational) and the transform. -/
structure TfStamped where
  stamp : ℚ
  transform : RigidTransform
deriving DecidableEq

/-- Model of `geometry_msgs/Twist`: linear and angular velocity commands.
`Twist()` in Python initialises every component to zero. -/
structure Twist where
  linear : Vec3
  angular : Vec3
deriving DecidableEq

/-- The all-zero `Twist()` message. -/
def Twist.zero : Twist := ⟨⟨0, 0, 0⟩, ⟨0, 0, 0⟩⟩

/-- Modelled from the spec: the `PID` class imported via `from pid import PID`;
the file `pid.py` is not present under `src/`. Spec §3 (PIDLoop) and §4.1:
parameters are {proportional gain, integral gain, derivative gain, output min,
output max, identifying label}; mutable state is {accumulated integral,
previous error, previous timestamp}. `prevError = none` encodes the
previous-error state being undefined (first call since construction or
reset). -/
structure PID where
  kp : ℚ
  ki : ℚ
  kd : ℚ
  minOutput : ℚ
  maxOutput : ℚ
  name : String
  integral : ℚ
  prevError : Option ℚ
  prevTime : ℚ
deriving DecidableEq

/-- Modelled from the spec: the `PID` constructor as called in
`Controller.__init__`, e.g. `PID(35, 10, 0.0, -20, 20, "x")`; the six
positional parameters follow the order the spec lists in §3 (kp, ki, kd, min,
max, label). State starts with a zero integral and an undefined previous
error. -/
def mkPID (kp ki kd minOutput maxOutput : ℚ) (name : String) : PID :=
  ⟨kp, ki, kd, minOutput, maxOutput, name, 0, none, 0⟩

/-- Modelled from the spec (§4.1): `update(setpoint, measurement) → output`.
error = setpoint − measurement; the derivative term (error − previous_error)/Δt
is skipped when the previous error is undefined; raw = kp·error + ki·integral
+ kd·derivative; the integral accumulates error·Δt unconditionally; raw is
clamped to [min, max] before returning. `t` is the wall-clock time of the
call. Returns the updated loop state and the clamped output. -/
def PID.update (p : PID) (t setpoint measurement : ℚ) : PID × ℚ :=
  let dt := t - p.prevTime
  let error := setpoint - measurement
  let d : ℚ :=
    match p.prevError with
    | none => 0
    | some pe => (error - pe) / dt
  let raw := p.kp * error + p.ki * p.integral + p.kd * d
  let output := max p.minOutput (min p.maxOutput raw)
  ({ p with
      integral := p.integral + error * dt
      prevError := some error
      prevTime := t }, output)

/-- Modelled from the spec (§4.1): `reset()` zeroes the integral accumulator
and the previous-error state; gains and limits are unchanged. -/
def PID.reset (p : PID) : PID :=
  { p with integral := 0, prevError := none }

/-- The flight states, `Controller.Idle / Automatic / TakingOff / Landing`
(class constants 0, 1, 2, 3). -/
inductive FlightState
  | Idle
  | Automatic
  | TakingOff
  | Landing
deriving DecidableEq

/-- The mutable state of the `Controller` object, together with the local
variable `thrust` of `Controller.run` (it persists across loop iterations,
so it is carried here). `targetZ` mirrors the attribute `self.targetZ`
assigned at the TakingOff to Automatic transition. -/
structure Controller where
  frame : String
  pidX : PID
  pidY : PID
  pidZ : PID
  pidYaw : PID
  state : FlightState
  goal : Pose
  lastTf : Option TfStamped
  targetZ : ℚ
  thrust : ℚ
deriving DecidableEq

/-- The four loops as constructed in `Controller.__init__`:
`PID(35, 10, 0.0, -20, 20, "x")`. -/
def pidX0 : PID := mkPID 35 10 0 (-20) 20 "x"

/-- `PID(-35, -10, -0.0, -20, 20, "y")`. -/
def pidY0 : PID := mkPID (-35) (-10) (-0) (-20) 20 "y"

/-- `PID(4000, 3000.0, 2000.0, 10000, 60000, "z")`. -/
def pidZ0 : PID := mkPID 4000 3000 2000 10000 60000 "z"

/-- `PID(-50.0, 0.0, 0.0, -200.0, 200.0, "yaw")`. -/
def pidYaw0 : PID := mkPID (-50) 0 0 (-200) 200 "yaw"

/-- `Controller.getTransform(source_frame, target_frame)`: reads
`self.lastTf`, computes the sample age in milliseconds from `now`, logs a
high-latency warning when the age exceeds 25 ms, and returns the translation,
rotation and stamp of the last transform. The two frame arguments are unused
by the body, exactly as in the source. The first component is the returned
triple; the second collects the `logwarn` latencies. When `lastTf` is `none`
the Python attribute access would fail, modelled here as no triple; the run
loop only calls this after the startup wait has seen a sample. -/
def getTransform (lastTf : Option TfStamped) (now : ℚ)
    (source_frame target_frame : String) : Option (Vec3 × Quat × ℚ) × List ℚ :=
  match lastTf with
  | none => (none, [])
  | some tfS =>
    let delta := (now - tfS.stamp) * 1000
    (some (tfS.transform.translation, tfS.transform.rotation, tfS.stamp),
      if delta > 25 then [delta] else [])

/-- `Controller.pidReset`: the source calls `self.pidX.reset()`,
`self.pidZ.reset()` twice, and `self.pidYaw.reset()`; `self.pidY` is never
reset. The duplicated Z reset and the missing Y reset are reproduced
faithfully. -/
def pidReset (c : Controller) : Controller :=
  let c1 := { c with pidX := c.pidX.reset }
  let c2 := { c1 with pidZ := c1.pidZ.reset }
  let c3 := { c2 with pidZ := c2.pidZ.reset }
  { c3 with pidYaw := c3.pidYaw.reset }

/-- Homogeneous 4-vector, as used for `goal_vec` and `target_pos` (numpy
arrays of length 4). -/
structure Vec4 where
  x : ℚ
  y : ℚ
  z : ℚ
  w : ℚ
deriving DecidableEq

/-- Dot product of two 4-vectors. -/
def Vec4.dot (u v : Vec4) : ℚ :=
  u.x * v.x + u.y * v.y + u.z * v.z + u.w * v.w

/-- A 4 by 4 matrix given by its rows, as used for the numpy matrices built by
`tf.transformations`. -/
structure Mat4 where
  r0 : Vec4
  r1 : Vec4
  r2 : Vec4
  r3 : Vec4
deriving DecidableEq

/-- `M.dot(v)` for a 4 by 4 matrix and a 4-vector. -/
def Mat4.mulVec (m : Mat4) (v : Vec4) : Vec4 :=
  ⟨m.r0.dot v, m.r1.dot v, m.r2.dot v, m.r3.dot v⟩

/-- `numpy.identity(4)`. -/
def identity4 : Mat4 :=
  ⟨⟨1, 0, 0, 0⟩, ⟨0, 1, 0, 0⟩, ⟨0, 0, 1, 0⟩, ⟨0, 0, 0, 1⟩⟩

/-- The `_EPS` constant of `tf.transformations`:
`numpy.finfo(float64).eps * 4.0 = 2 ^ (-52) * 4`. -/
def tfEPS : ℚ := 4 / 2 ^ 52

/-- `numpy.dot(q, q)` for a quaternion: the squared norm. -/
def qnorm2 (q : Quat) : ℚ :=
  q.x * q.x + q.y * q.y + q.z * q.z + q.w * q.w

/-- `tf.transformations.quaternion_conjugate` (x, y, z, w order). -/
def quaternion_conjugate (q : Quat) : Quat :=
  ⟨-q.x, -q.y, -q.z, q.w⟩

/-- `tf.transformations.quaternion_inverse`: the conjugate divided by
`numpy.dot(q, q)`. -/
def quaternion_inverse (q : Quat) : Quat :=
  let n := qnorm2 q
  ⟨-q.x / n, -q.y / n, -q.z / n, q.w / n⟩

/-- `tf.transformations.quaternion_matrix`: with `nq = dot(q, q)`, returns the
identity when `nq < _EPS`; otherwise the source scales `q` by `sqrt(2 / nq)`
and takes the outer product, so every matrix entry is a sum of terms
`(2 / nq) * q_i * q_j` — the square root cancels exactly and the matrix is
written here in that equivalent square-root-free form. -/
def quaternion_matrix (q : Quat) : Mat4 :=
  let nq := qnorm2 q
  if nq < tfEPS then identity4
  else
    let s := 2 / nq
    ⟨⟨1 - s * (q.y * q.y + q.z * q.z), s * (q.x * q.y - q.z * q.w),
        s * (q.x * q.z + q.y * q.w), 0⟩,
      ⟨s * (q.x * q.y + q.z * q.w), 1 - s * (q.x * q.x + q.z * q.z),
        s * (q.y * q.z - q.x * q.w), 0⟩,
      ⟨s * (q.x * q.z - q.y * q.w), s * (q.y * q.z + q.x * q.w),
        1 - s * (q.x * q.x + q.y * q.y), 0⟩,
      ⟨0, 0, 0, 1⟩⟩

/-- `tf.transformations.translation_matrix`: the identity with the first three
entries of the last column set to the direction. -/
def translation_matrix (v : Vec3) : Mat4 :=
  ⟨⟨1, 0, 0, v.x⟩, ⟨0, 1, 0, v.y⟩, ⟨0, 0, 1, v.z⟩, ⟨0, 0, 0, 1⟩⟩

/-- The `target_pos` computation of the Automatic/Landing branch of
`Controller.run`: `goal_vec` is the homogeneous goal position, and
`target_pos = quaternion_matrix(quaternion_inverse(q)).dot(
translation_matrix((-px, -py, -pz)).dot(goal_vec))`. -/
def bodyFrameTarget (position : Vec3) (quaternion : Quat) (goal : Pose) : Vec4 :=
  let goal_vec : Vec4 := ⟨goal.position.x, goal.position.y, goal.position.z, 1⟩
  let rot_matrix := quaternion_matrix (quaternion_inverse quaternion)
  let trans_matrix := translation_matrix ⟨-position.x, -position.y, -position.z⟩
  rot_matrix.mulVec (trans_matrix.mulVec goal_vec)

/-- `math.atan2(y, x)`, written with `Real.arctan` on each region of the
plane. -/
noncomputable def atan2 (y x : ℝ) : ℝ :=
  if 0 < x then Real.arctan (y / x)
  else if x < 0 then
    (if 0 ≤ y then Real.arctan (y / x) + Real.pi
      else Real.arctan (y / x) - Real.pi)
  else if 0 < y then Real.pi / 2
  else if y < 0 then -(Real.pi / 2)
  else 0

/-- `tf.transformations.euler_from_matrix(M, axes = sxyz)` restricted to the
static xyz axis convention used by `euler_from_quaternion`: with i = 0, j = 1,
k = 2, `cy = sqrt(M[0,0]^2 + M[1,0]^2)`; when `cy > _EPS` the angles are
`(atan2(M[2,1], M[2,2]), atan2(-M[2,0], cy), atan2(M[1,0], M[0,0]))`,
otherwise `(atan2(-M[1,2], M[1,1]), atan2(-M[2,0], cy), 0)`. The matrix
entries are rational here, coerced into the reals where the transcendental
functions live. -/
noncomputable def euler_from_matrix_sxyz (m : Mat4) : ℝ × ℝ × ℝ :=
  let cy := Real.sqrt ((m.r0.x : ℝ) ^ 2 + (m.r1.x : ℝ) ^ 2)
  if cy > ((tfEPS : ℚ) : ℝ) then
    (atan2 (m.r2.y : ℝ) (m.r2.z : ℝ), atan2 (-(m.r2.x : ℝ)) cy,
      atan2 (m.r1.x : ℝ) (m.r0.x : ℝ))
  else
    (atan2 (-(m.r1.z : ℝ)) (m.r1.y : ℝ), atan2 (-(m.r2.x : ℝ)) cy, 0)

/-- `tf.transformations.euler_from_quaternion(q)`: the sxyz Euler angles of
the rotation matrix of `q`. The third component is the yaw fed to the yaw
PID loop. -/
noncomputable def euler_from_quaternion (q : Quat) : ℝ × ℝ × ℝ :=
  euler_from_matrix_sxyz (quaternion_matrix q)

/-- Result of one block of the tick loop: the controller state after the
block, the `Twist` messages published by `self.pubNav`, the `logwarn`
latencies from `getTransform`, and the `logerr` strings. -/
structure StepOut where
  ctrl : Controller
  published : List Twist
  warnings : List ℚ
  errors : List String
deriving DecidableEq

/-- The `if self.state == Controller.TakingOff:` block of `Controller.run`.
When the transform reads height above 0.05 or the ramp exceeds 50000: reset
the loops via `pidReset`, seed `pidZ.integral` with `thrust / self.pidZ.ki`,
set `targetZ` to 0.5, switch to Automatic and zero the ramp, publishing
nothing. Otherwise: add 100 to the ramp and publish a `Twist` whose only
nonzero component is `linear.z = thrust`. -/
def takingOffStep (c : Controller) (now : ℚ) : StepOut :=
  if c.state = FlightState.TakingOff then
    match getTransform c.lastTf now "/world" c.frame with
    | (some (position, _quaternion, _t), w) =>
      if position.z > 0.05 ∨ c.thrust > 50000 then
        let c1 := pidReset c
        let c2 := { c1 with pidZ := { c1.pidZ with integral := c1.thrust / c1.pidZ.ki } }
        let c3 := { c2 with
          targetZ := 0.5
          state := FlightState.Automatic
          thrust := 0 }
        ⟨c3, [], w, []⟩
      else
        let thrust := c.thrust + 100
        let msg : Twist := ⟨⟨0, 0, thrust⟩, ⟨0, 0, 0⟩⟩
        ⟨{ c with thrust := thrust }, [msg], w, []⟩
    | (none, w) => ⟨c, [], w, ["Could not transform from /world to " ++ c.frame]⟩
  else ⟨c, [], [], []⟩

/-- The `if self.state == Controller.Landing:` block of `Controller.run`.
The stored goal altitude is overwritten with 0.05 before anything else; then,
when the transform reads height at most 0.1, the state becomes Idle and one
`Twist()` (all zero) is published. -/
def landingStep (c : Controller) (now : ℚ) : StepOut :=
  if c.state = FlightState.Landing then
    let c0 := { c with goal.position.z := 0.05 }
    match getTransform c0.lastTf now "/world" c0.frame with
    | (some (position, _quaternion, _t), w) =>
      if position.z ≤ 0.1 then
        ⟨{ c0 with state := FlightState.Idle }, [Twist.zero], w, []⟩
      else ⟨c0, [], w, []⟩
    | (none, w) => ⟨c0, [], w, ["Could not transform from /world to " ++ c0.frame]⟩
  else ⟨c, [], [], []⟩

/-- The `Twist` assembled by the Automatic/Landing block: linear x, y, z from
the X, Y, Z loops fed with setpoint 0 and the body-frame offsets divided by
the homogeneous component, angular z from the yaw loop fed with the current
and goal yaw extracted by `euler`. -/
def automaticCommand (euler : Quat → ℚ × ℚ × ℚ) (position : Vec3)
    (quaternion : Quat) (c : Controller) (now : ℚ) : Twist :=
  let target_pos := bodyFrameTarget position quaternion c.goal
  let eulerIs := euler quaternion
  let eulerGoal := euler c.goal.orientation
  ⟨⟨(c.pidX.update now 0 (target_pos.x / target_pos.w)).2,
      (c.pidY.update now 0 (target_pos.y / target_pos.w)).2,
      (c.pidZ.update now 0 (target_pos.z / target_pos.w)).2⟩,
    ⟨0, 0, (c.pidYaw.update now eulerIs.2.2 eulerGoal.2.2).2⟩⟩

/-- The `if self.state == Controller.Automatic or self.state ==
Controller.Landing:` block of `Controller.run`: read the transform, compute
the body-frame target, run the four PID updates and publish the assembled
command. The source extracts the yaw angles with
`tf.transformations.euler_from_quaternion`, an external transcendental
routine (its real-valued definition is `euler_from_quaternion` above); the
block is parametric in the extraction function `euler` so that the rest of
the arithmetic stays rational. -/
def autoStep (euler : Quat → ℚ × ℚ × ℚ) (c : Controller) (now : ℚ) : StepOut :=
  if c.state = FlightState.Automatic ∨ c.state = FlightState.Landing then
    match getTransform c.lastTf now "/world" c.frame with
    | (some (position, quaternion, _t), w) =>
      let target_pos := bodyFrameTarget position quaternion c.goal
      let eulerIs := euler quaternion
      let eulerGoal := euler c.goal.orientation
      let pX := c.pidX.update now 0 (target_pos.x / target_pos.w)
      let pY := c.pidY.update now 0 (target_pos.y / target_pos.w)
      let pZ := c.pidZ.update now 0 (target_pos.z / target_pos.w)
      let pW := c.pidYaw.update now eulerIs.2.2 eulerGoal.2.2
      let msg : Twist := ⟨⟨pX.2, pY.2, pZ.2⟩, ⟨0, 0, pW.2⟩⟩
      ⟨{ c with pidX := pX.1, pidY := pY.1, pidZ := pZ.1, pidYaw := pW.1 },
        [msg], w, []⟩
    | (none, w) => ⟨c, [], w, ["Could not transform from /world to " ++ c.frame]⟩
  else ⟨c, [], [], []⟩

/-- The `if self.state == Controller.Idle:` block of `Controller.run`:
publish `Twist()` (all zero). -/
def idleStep (c : Controller) : Controller × List Twist :=
  if c.state = FlightState.Idle then (c, [Twist.zero]) else (c, [])

/-- One iteration of the main loop of `Controller.run`: the four blocks run
in source order as independent if-statements, each reading the state field as
mutated by the blocks before it. `now` is `rospy.Time.now()` at the top of
the iteration; the PID updates read the wall clock at call time, modelled by
the same `now`. -/
def tick (euler : Quat → ℚ × ℚ × ℚ) (c : Controller) (now : ℚ) : StepOut :=
  let s1 := takingOffStep c now
  let s2 := landingStep s1.ctrl now
  let s3 := autoStep euler s2.ctrl now
  let s4 := idleStep s3.ctrl
  ⟨s4.1, s1.published ++ s2.published ++ s3.published ++ s4.2,
    s1.warnings ++ s2.warnings ++ s3.warnings,
    s1.errors ++ s2.errors ++ s3.errors⟩

/-- Concrete transform sample: height 1/5 (above the 0.05 takeoff threshold
and above the 0.1 landing threshold), identity-like quaternion, stamp 0. -/
def tfHigh : TfStamped := ⟨0, ⟨⟨1, 2, 1/5⟩, ⟨0, 0, 0, 1⟩⟩⟩

/-- Concrete transform sample: height 1/50 (below both thresholds). -/
def tfLow : TfStamped := ⟨0, ⟨⟨1, 2, 1/50⟩, ⟨0, 0, 0, 1⟩⟩⟩

/-- A concrete externally supplied goal pose. -/
def goal0 : Pose := ⟨⟨3, 4, 2⟩, ⟨0, 0, 0, 1⟩⟩

/-- A controller in a given state with the freshly constructed loops, the
concrete goal, a given last transform and thrust ramp value. -/
def mkCtrl (st : FlightState) (tf : Option TfStamped) (thrust : ℚ) : Controller :=
  ⟨"crazyflie", pidX0, pidY0, pidZ0, pidYaw0, st, goal0, tf, 0, thrust⟩

/-- A concrete yaw-extraction function for witnesses (the tick is parametric
in the extraction). -/
def euler0 : Quat → ℚ × ℚ × ℚ := fun _ => (0, 0, 0)

/-- The controller used to exhibit the missing Y reset: its Y loop carries a
nonzero integral and a defined previous error into the TakingOff state, with
a transform reading height 1/5 > 0.05. -/
def cPidYBug : Controller :=
  { mkCtrl FlightState.TakingOff (some tfHigh) 0 with
    pidY := { pidY0 with integral := 7, prevError := some 3 } }

/- ------------------------------------------------------------------ -/
/- Theorems. -/

/-- Any PID update output is clamped between the configured bounds. -/
theorem pid_update_between (p : PID) (h : p.minOutput ≤ p.maxOutput)
    (t sp m : ℚ) :
    p.minOutput ≤ (p.update t sp m).2 ∧ (p.update t sp m).2 ≤ p.maxOutput := by
  refine ⟨le_max_left _ _, max_le h (min_le_left _ _)⟩

/-- C5: for each of the four loop instances of `Controller.__init__`, every
call to `update` — whatever the accumulated integral, previous-error state,
previous timestamp, call time and inputs — returns an output inside the
configured interval: X and Y in [-20, 20], Z in [10000, 60000], Yaw in
[-200, 200]. -/
theorem C5_pid_output_clamped :
    ∀ (I : ℚ) (pe : Option ℚ) (pt t sp m : ℚ),
      ((-20 : ℚ) ≤
          (({ pidX0 with integral := I, prevError := pe, prevTime := pt }).update t sp m).2
        ∧ (({ pidX0 with integral := I, prevError := pe, prevTime := pt }).update t sp m).2 ≤ 20)
      ∧ ((-20 : ℚ) ≤
          (({ pidY0 with integral := I, prevError := pe, prevTime := pt }).update t sp m).2
        ∧ (({ pidY0 with integral := I, prevError := pe, prevTime := pt }).update t sp m).2 ≤ 20)
      ∧ ((10000 : ℚ) ≤
          (({ pidZ0 with integral := I, prevError := pe, prevTime := pt }).update t sp m).2
        ∧ (({ pidZ0 with integral := I, prevError := pe, prevTime := pt }).update t sp m).2 ≤ 60000)
      ∧ ((-200 : ℚ) ≤
          (({ pidYaw0 with integral := I, prevError := pe, prevTime := pt }).update t sp m).2
        ∧ (({ pidYaw0 with integral := I, prevError := pe, prevTime := pt }).update t sp m).2
            ≤ 200) := by
  intro I pe pt t sp m
  refine ⟨?_, ?_, ?_, ?_⟩
  · simpa [pidX0, mkPID] using
      pid_update_between { pidX0 with integral := I, prevError := pe, prevTime := pt }
        (by norm_num [pidX0, mkPID]) t sp m
  · simpa [pidY0, mkPID] using
      pid_update_between { pidY0 with integral := I, prevError := pe, prevTime := pt }
        (by norm_num [pidY0, mkPID]) t sp m
  · simpa [pidZ0, mkPID] using
      pid_update_between { pidZ0 with integral := I, prevError := pe, prevTime := pt }
        (by norm_num [pidZ0, mkPID]) t sp m
  · simpa [pidYaw0, mkPID] using
      pid_update_between { pidYaw0 with integral := I, prevError := pe, prevTime := pt }
        (by norm_num [pidYaw0, mkPID]) t sp m

/-- C1: the transition branch of the TakingOff block does NOT reset all four
loops: `Controller.pidReset` resets X, Z (twice) and Yaw but never Y. First
conjunct: `pidReset` leaves the Y loop of any controller untouched. The rest
evaluates the TakingOff block at a concrete failing input (Y integral 7,
Y previous error 3, measured height 1/5 > 0.05): the transition to Automatic
happens, X and Yaw are zeroed, but the Y integral and previous-error state
survive. -/
theorem C1_pidY_never_reset :
    (∀ c : Controller, (pidReset c).pidY = c.pidY)
    ∧ (takingOffStep cPidYBug 0).ctrl.state = FlightState.Automatic
    ∧ (takingOffStep cPidYBug 0).ctrl.pidY.integral = 7
    ∧ (takingOffStep cPidYBug 0).ctrl.pidY.prevError = some 3
    ∧ (takingOffStep cPidYBug 0).ctrl.pidX.integral = 0
    ∧ (takingOffStep cPidYBug 0).ctrl.pidX.prevError = none
    ∧ (takingOffStep cPidYBug 0).ctrl.pidYaw.integral = 0
    ∧ (takingOffStep cPidYBug 0).ctrl.pidYaw.prevError = none := by
  refine ⟨fun c => rfl, ?_⟩
  norm_num [takingOffStep, getTransform, pidReset, PID.reset, cPidYBug, mkCtrl,
    tfHigh, pidX0, pidY0, pidZ0, pidYaw0, mkPID]

/-- C2: in the TakingOff block, with a transform sample present, the
transition to Automatic happens exactly when the measured height exceeds 0.05
or the ramp exceeds 50000; on the transition the Z-loop integral is seeded
with `thrust / ki` at the pre-reset ramp value, the working goal altitude
`targetZ` becomes 0.5, and the ramp is reset to 0. -/
theorem C2_takeoff_transition (c : Controller) (now : ℚ) (tfS : TfStamped)
    (hs : c.state = FlightState.TakingOff) (htf : c.lastTf = some tfS) :
    ((takingOffStep c now).ctrl.state = FlightState.Automatic ↔
      (tfS.transform.translation.z > 0.05 ∨ c.thrust > 50000))
    ∧ ((tfS.transform.translation.z > 0.05 ∨ c.thrust > 50000) →
        (takingOffStep c now).ctrl.pidZ.integral = c.thrust / c.pidZ.ki
        ∧ (takingOffStep c now).ctrl.targetZ = 0.5
        ∧ (takingOffStep c now).ctrl.thrust = 0) := by
  by_cases hc : tfS.transform.translation.z > 0.05 ∨ c.thrust > 50000
  · simp [takingOffStep, getTransform, hs, htf, hc, pidReset, PID.reset]
  · simp [takingOffStep, getTransform, hs, htf, hc]

/-- C2 witness: the theorem applied to a TakingOff controller whose sample
reads height 1/5 > 0.05 with ramp 300. -/
theorem C2_takeoff_transition_witness :
    (mkCtrl FlightState.TakingOff (some tfHigh) 300).state = FlightState.TakingOff
    ∧ (mkCtrl FlightState.TakingOff (some tfHigh) 300).lastTf = some tfHigh
    ∧ (((takingOffStep (mkCtrl FlightState.TakingOff (some tfHigh) 300) 1).ctrl.state
          = FlightState.Automatic ↔
        (tfHigh.transform.translation.z > 0.05
          ∨ (mkCtrl FlightState.TakingOff (some tfHigh) 300).thrust > 50000))
      ∧ ((tfHigh.transform.translation.z > 0.05
            ∨ (mkCtrl FlightState.TakingOff (some tfHigh) 300).thrust > 50000) →
          (takingOffStep (mkCtrl FlightState.TakingOff (some tfHigh) 300) 1).ctrl.pidZ.integral
            = (mkCtrl FlightState.TakingOff (some tfHigh) 300).thrust
                / (mkCtrl FlightState.TakingOff (some tfHigh) 300).pidZ.ki
          ∧ (takingOffStep (mkCtrl FlightState.TakingOff (some tfHigh) 300) 1).ctrl.targetZ
              = 0.5
          ∧ (takingOffStep (mkCtrl FlightState.TakingOff (some tfHigh) 300) 1).ctrl.thrust
              = 0)) :=
  ⟨rfl, rfl, C2_takeoff_transition (mkCtrl FlightState.TakingOff (some tfHigh) 300) 1 tfHigh
    rfl rfl⟩

/-- C7: a full tick in TakingOff with the transition condition false adds
exactly 100 to the ramp and publishes exactly one command, whose only nonzero
component is the vertical one, equal to the new ramp value. -/
theorem C7_takeoff_ramp (euler : Quat → ℚ × ℚ × ℚ) (c : Controller) (now : ℚ)
    (tfS : TfStamped) (hs : c.state = FlightState.TakingOff)
    (htf : c.lastTf = some tfS)
    (hc : ¬(tfS.transform.translation.z > 0.05 ∨ c.thrust > 50000)) :
    (tick euler c now).ctrl.thrust = c.thrust + 100
    ∧ (tick euler c now).published = [⟨⟨0, 0, c.thrust + 100⟩, ⟨0, 0, 0⟩⟩] := by
  simp [tick, takingOffStep, landingStep, autoStep, idleStep, getTransform, hs, htf, hc]

/-- C7 witness: the theorem applied to a TakingOff controller whose sample
reads height 1/50 and whose ramp is 300. -/
theorem C7_takeoff_ramp_witness :
    (mkCtrl FlightState.TakingOff (some tfLow) 300).state = FlightState.TakingOff
    ∧ (mkCtrl FlightState.TakingOff (some tfLow) 300).lastTf = some tfLow
    ∧ ¬(tfLow.transform.translation.z > 0.05
        ∨ (mkCtrl FlightState.TakingOff (some tfLow) 300).thrust > 50000)
    ∧ (tick euler0 (mkCtrl FlightState.TakingOff (some tfLow) 300) 1).ctrl.thrust
        = (mkCtrl FlightState.TakingOff (some tfLow) 300).thrust + 100
    ∧ (tick euler0 (mkCtrl FlightState.TakingOff (some tfLow) 300) 1).published
        = [⟨⟨0, 0, (mkCtrl FlightState.TakingOff (some tfLow) 300).thrust + 100⟩, ⟨0, 0, 0⟩⟩] := by
  have hc : ¬(tfLow.transform.translation.z > 0.05
      ∨ (mkCtrl FlightState.TakingOff (some tfLow) 300).thrust > 50000) := by
    norm_num [tfLow, mkCtrl]
  exact ⟨rfl, rfl, hc,
    C7_takeoff_ramp euler0 (mkCtrl FlightState.TakingOff (some tfLow) 300) 1 tfLow rfl rfl hc⟩

/-- C8: a tick starting in Idle publishes exactly the all-zero command,
changes nothing in the controller, and publishes the same command whatever
the stored goal pose and pose sample are. -/
theorem C8_idle_zero_command (euler : Quat → ℚ × ℚ × ℚ) (c : Controller)
    (now : ℚ) (hs : c.state = FlightState.Idle) :
    (tick euler c now).published = [Twist.zero]
    ∧ (tick euler c now).ctrl = c
    ∧ ∀ (g2 : Pose) (tf2 : Option TfStamped),
        (tick euler { c with goal := g2, lastTf := tf2 } now).published = [Twist.zero] := by
  refine ⟨?_, ?_, fun g2 tf2 => ?_⟩ <;>
    simp [tick, takingOffStep, landingStep, autoStep, idleStep, hs]

/-- C8 witness: the theorem applied to a concrete Idle controller. -/
theorem C8_idle_zero_command_witness :
    (mkCtrl FlightState.Idle (some tfHigh) 0).state = FlightState.Idle
    ∧ (tick euler0 (mkCtrl FlightState.Idle (some tfHigh) 0) 1).published = [Twist.zero]
    ∧ (tick euler0 (mkCtrl FlightState.Idle (some tfHigh) 0) 1).ctrl
        = mkCtrl FlightState.Idle (some tfHigh) 0
    ∧ ∀ (g2 : Pose) (tf2 : Option TfStamped),
        (tick euler0 { mkCtrl FlightState.Idle (some tfHigh) 0 with
          goal := g2, lastTf := tf2 } 1).published = [Twist.zero] :=
  ⟨rfl, C8_idle_zero_command euler0 (mkCtrl FlightState.Idle (some tfHigh) 0) 1 rfl⟩

/-- C9: with a pose sample present (the startup wait guarantees one),
`getTransform` returns the triple whatever the frame arguments are, and a
tick logs no transform error in any phase: no phase's command emission is
skipped by a transform-read failure. -/
theorem C9_no_transform_failure (euler : Quat → ℚ × ℚ × ℚ) (c : Controller)
    (now : ℚ) (tfS : TfStamped) (htf : c.lastTf = some tfS)
    (sf tg : String) :
    (getTransform c.lastTf now sf tg).1
        = some (tfS.transform.translation, tfS.transform.rotation, tfS.stamp)
    ∧ (tick euler c now).errors = [] := by
  refine ⟨by simp [getTransform, htf], ?_⟩
  cases hstate : c.state <;>
    simp [tick, takingOffStep, landingStep, autoStep, idleStep, getTransform,
      pidReset, PID.reset, hstate, htf] <;>
    split <;> simp

/-- C9 witness: the theorem applied to a concrete Landing controller. -/
theorem C9_no_transform_failure_witness :
    (mkCtrl FlightState.Landing (some tfHigh) 0).lastTf = some tfHigh
    ∧ (getTransform (mkCtrl FlightState.Landing (some tfHigh) 0).lastTf 1 "/world" "crazyflie").1
        = some (tfHigh.transform.translation, tfHigh.transform.rotation, tfHigh.stamp)
    ∧ (tick euler0 (mkCtrl FlightState.Landing (some tfHigh) 0) 1).errors = [] :=
  ⟨rfl, C9_no_transform_failure euler0 (mkCtrl FlightState.Landing (some tfHigh) 0) 1 tfHigh
    rfl "/world" "crazyflie"⟩

/-- C3: a tick starting in Landing forces the stored goal altitude to 0.05
while leaving the lateral goal and the goal orientation unchanged; the state
becomes Idle exactly when the measured height is at most 0.1; on the
transition tick only zero commands are published (the Landing block emits the
final zero command in place of the computed PID command, and the Idle block,
reached in the same tick, emits a second zero — see C10); on a
non-transition tick the published command is the PID command computed from
the overridden goal. -/
theorem C3_landing_behaviour (euler : Quat → ℚ × ℚ × ℚ) (c : Controller)
    (now : ℚ) (tfS : TfStamped) (hs : c.state = FlightState.Landing)
    (htf : c.lastTf = some tfS) :
    ((tick euler c now).ctrl.goal.position.z = 0.05
      ∧ (tick euler c now).ctrl.goal.position.x = c.goal.position.x
      ∧ (tick euler c now).ctrl.goal.position.y = c.goal.position.y
      ∧ (tick euler c now).ctrl.goal.orientation = c.goal.orientation)
    ∧ (tfS.transform.translation.z ≤ 0.1 ↔
        (tick euler c now).ctrl.state = FlightState.Idle)
    ∧ (tfS.transform.translation.z ≤ 0.1 →
        (tick euler c now).published = [Twist.zero, Twist.zero])
    ∧ (¬tfS.transform.translation.z ≤ 0.1 →
        (tick euler c now).published
          = [automaticCommand euler tfS.transform.translation tfS.transform.rotation
              { c with goal.position.z := 0.05 } now]) := by
  by_cases hz : tfS.transform.translation.z ≤ 0.1
  · simp [tick, takingOffStep, landingStep, autoStep, idleStep, getTransform,
      hs, htf, hz]
  · simp [tick, takingOffStep, landingStep, autoStep, idleStep, getTransform,
      automaticCommand, hs, htf, hz]

/-- C3 witness: the theorem applied to a Landing controller whose sample
reads height 1/50 (at most 0.1), so the transition tick is exercised. -/
theorem C3_landing_behaviour_witness :
    (mkCtrl FlightState.Landing (some tfLow) 0).state = FlightState.Landing
    ∧ (mkCtrl FlightState.Landing (some tfLow) 0).lastTf = some tfLow
    ∧ (tick euler0 (mkCtrl FlightState.Landing (some tfLow) 0) 1).ctrl.goal.position.z = 0.05
    ∧ (tfLow.transform.translation.z ≤ 0.1 ↔
        (tick euler0 (mkCtrl FlightState.Landing (some tfLow) 0) 1).ctrl.state
          = FlightState.Idle)
    ∧ (tfLow.transform.translation.z ≤ 0.1 →
        (tick euler0 (mkCtrl FlightState.Landing (some tfLow) 0) 1).published
          = [Twist.zero, Twist.zero]) := by
  obtain ⟨h1, h2, h3, _h4⟩ :=
    C3_landing_behaviour euler0 (mkCtrl FlightState.Landing (some tfLow) 0) 1 tfLow rfl rfl
  exact ⟨rfl, rfl, h1.1, h2, h3⟩

/-- C10: the phase dispatch is a sequence of independent if-statements on the
mutated state field, so a transition taken earlier in a tick makes the new
state's branch run in the same tick. In the Landing-to-Idle tick both the
Landing block and the Idle block publish a zero command (two commands); in
the TakingOff-to-Automatic tick the Automatic block computes and publishes
the full PID command. -/
theorem C10_same_tick_dispatch (euler : Quat → ℚ × ℚ × ℚ) (c : Controller)
    (now : ℚ) (tfS : TfStamped) (htf : c.lastTf = some tfS) :
    (c.state = FlightState.Landing → tfS.transform.translation.z ≤ 0.1 →
      (tick euler c now).published = [Twist.zero, Twist.zero]
      ∧ (tick euler c now).ctrl.state = FlightState.Idle)
    ∧ (c.state = FlightState.TakingOff →
        (tfS.transform.translation.z > 0.05 ∨ c.thrust > 50000) →
      (tick euler c now).published
        = [automaticCommand euler tfS.transform.translation tfS.transform.rotation
            (takingOffStep c now).ctrl now]
      ∧ (tick euler c now).ctrl.state = FlightState.Automatic) := by
  constructor
  · intro hs hz
    simp [tick, takingOffStep, landingStep, autoStep, idleStep, getTransform,
      hs, htf, hz]
  · intro hs hc
    simp [tick, takingOffStep, landingStep, autoStep, idleStep, getTransform,
      automaticCommand, pidReset, PID.reset, hs, htf, hc]

/-- C10 witness: the theorem applied to a TakingOff controller with ramp
60000 > 50000, so the TakingOff-to-Automatic same-tick dispatch is
exercised. -/
theorem C10_same_tick_dispatch_witness :
    (mkCtrl FlightState.TakingOff (some tfLow) 60000).lastTf = some tfLow
    ∧ (mkCtrl FlightState.TakingOff (some tfLow) 60000).state = FlightState.TakingOff
    ∧ (tfLow.transform.translation.z > 0.05
        ∨ (mkCtrl FlightState.TakingOff (some tfLow) 60000).thrust > 50000)
    ∧ (tick euler0 (mkCtrl FlightState.TakingOff (some tfLow) 60000) 1).published
        = [automaticCommand euler0 tfLow.transform.translation tfLow.transform.rotation
            (takingOffStep (mkCtrl FlightState.TakingOff (some tfLow) 60000) 1).ctrl 1]
    ∧ (tick euler0 (mkCtrl FlightState.TakingOff (some tfLow) 60000) 1).ctrl.state
        = FlightState.Automatic := by
  have hc : tfLow.transform.translation.z > 0.05
      ∨ (mkCtrl FlightState.TakingOff (some tfLow) 60000).thrust > 50000 := by
    right
    norm_num [mkCtrl]
  exact ⟨rfl, rfl, hc,
    (C10_same_tick_dispatch euler0 (mkCtrl FlightState.TakingOff (some tfLow) 60000) 1 tfLow
      rfl).2 rfl hc⟩

/-- C6: when the pose sample is older than 25 ms the warning carries exactly
the measured latency; the returned triple is the translation, rotation and
stamp of the sample in either case; and the sample age never alters the
commands or the controller state of the tick: replacing the stamp by any
other value changes neither the published commands nor the resulting
controller (its unread `lastTf` field aside). -/
theorem C6_staleness_is_observational (euler : Quat → ℚ × ℚ × ℚ)
    (c : Controller) (now : ℚ) (tfS : TfStamped) (htf : c.lastTf = some tfS)
    (sf tg : String) :
    ((now - tfS.stamp) * 1000 > 25 →
      (getTransform c.lastTf now sf tg).2 = [(now - tfS.stamp) * 1000])
    ∧ (getTransform c.lastTf now sf tg).1
        = some (tfS.transform.translation, tfS.transform.rotation, tfS.stamp)
    ∧ ∀ s2 : ℚ,
        (tick euler { c with lastTf := some { tfS with stamp := s2 } } now).published
          = (tick euler c now).published
        ∧ { (tick euler { c with lastTf := some { tfS with stamp := s2 } } now).ctrl with
              lastTf := c.lastTf }
          = (tick euler c now).ctrl := by
  refine ⟨fun hl => by simp [getTransform, htf, hl], by simp [getTransform, htf], ?_⟩
  intro s2
  obtain ⟨fr, pX, pY, pZ, pW, st, gl, ltf, tZ, th⟩ := c
  simp only at htf
  subst htf
  cases st
  case Idle =>
    constructor <;>
      simp [tick, takingOffStep, landingStep, autoStep, idleStep, getTransform]
  case Automatic =>
    constructor <;>
      simp [tick, takingOffStep, landingStep, autoStep, idleStep, getTransform]
  case TakingOff =>
    by_cases hcond : tfS.transform.translation.z > 0.05 ∨ th > 50000 <;>
      constructor <;>
      simp [tick, takingOffStep, landingStep, autoStep, idleStep, getTransform,
        pidReset, PID.reset, hcond]
  case Landing =>
    by_cases hz : tfS.transform.translation.z ≤ 0.1 <;>
      constructor <;>
      simp [tick, takingOffStep, landingStep, autoStep, idleStep, getTransform, hz]

/-- C6 witness: the theorem applied to an Automatic controller at tick time 1
with sample stamp 0, so the measured latency 1000 ms exceeds 25 ms. -/
theorem C6_staleness_is_observational_witness :
    (mkCtrl FlightState.Automatic (some tfHigh) 0).lastTf = some tfHigh
    ∧ ((1 - tfHigh.stamp) * 1000 > 25 →
        (getTransform (mkCtrl FlightState.Automatic (some tfHigh) 0).lastTf 1
            "/world" "crazyflie").2 = [(1 - tfHigh.stamp) * 1000])
    ∧ (getTransform (mkCtrl FlightState.Automatic (some tfHigh) 0).lastTf 1
          "/world" "crazyflie").1
        = some (tfHigh.transform.translation, tfHigh.transform.rotation, tfHigh.stamp)
    ∧ ∀ s2 : ℚ,
        (tick euler0 { mkCtrl FlightState.Automatic (some tfHigh) 0 with
            lastTf := some { tfHigh with stamp := s2 } } 1).published
          = (tick euler0 (mkCtrl FlightState.Automatic (some tfHigh) 0) 1).published
        ∧ { (tick euler0 { mkCtrl FlightState.Automatic (some tfHigh) 0 with
              lastTf := some { tfHigh with stamp := s2 } } 1).ctrl with
              lastTf := (mkCtrl FlightState.Automatic (some tfHigh) 0).lastTf }
          = (tick euler0 (mkCtrl FlightState.Automatic (some tfHigh) 0) 1).ctrl :=
  ⟨rfl, C6_staleness_is_observational euler0 (mkCtrl FlightState.Automatic (some tfHigh) 0) 1
    tfHigh rfl "/world" "crazyflie"⟩

/-- Applying the translation matrix of the negated position to the
homogeneous position gives the homogeneous origin. -/
theorem translation_matrix_neg_self (p : Vec3) :
    (translation_matrix ⟨-p.x, -p.y, -p.z⟩).mulVec ⟨p.x, p.y, p.z, 1⟩
      = ⟨0, 0, 0, 1⟩ := by
  simp [translation_matrix, Mat4.mulVec, Vec4.dot]

/-- Every quaternion matrix fixes the homogeneous origin: its last column is
(0, 0, 0, 1) in both branches of the construction. -/
theorem quaternion_matrix_fixes_e3 (q : Quat) :
    (quaternion_matrix q).mulVec ⟨0, 0, 0, 1⟩ = ⟨0, 0, 0, 1⟩ := by
  unfold quaternion_matrix
  dsimp only
  split <;> simp [identity4, Mat4.mulVec, Vec4.dot]

/-- C4: when the goal pose equals the current pose (a unit-quaternion
orientation), the pose transform yields a body-frame offset of exactly
(0, 0, 0) after division by the homogeneous component, and the extracted
current yaw equals the extracted goal yaw. -/
theorem C4_identity_round_trip (position : Vec3) (quaternion : Quat)
    (goal : Pose) (hunit : qnorm2 quaternion = 1)
    (hpos : goal.position = position) (hori : goal.orientation = quaternion) :
    (bodyFrameTarget position quaternion goal).x
        / (bodyFrameTarget position quaternion goal).w = 0
    ∧ (bodyFrameTarget position quaternion goal).y
        / (bodyFrameTarget position quaternion goal).w = 0
    ∧ (bodyFrameTarget position quaternion goal).z
        / (bodyFrameTarget position quaternion goal).w = 0
    ∧ (euler_from_quaternion quaternion).2.2
        = (euler_from_quaternion goal.orientation).2.2 := by
  have ht : bodyFrameTarget position quaternion goal = ⟨0, 0, 0, 1⟩ := by
    unfold bodyFrameTarget
    dsimp only
    rw [hpos, translation_matrix_neg_self, quaternion_matrix_fixes_e3]
  rw [ht, hori]
  norm_num

/-- C4 witness: the theorem applied to the pose with position (1, 2, 3) and
the unit quaternion (0, 0, 0, 1), the goal being the same pose. -/
theorem C4_identity_round_trip_witness :
    qnorm2 ⟨0, 0, 0, 1⟩ = 1
    ∧ (Pose.mk ⟨1, 2, 3⟩ ⟨0, 0, 0, 1⟩).position = Vec3.mk 1 2 3
    ∧ (Pose.mk ⟨1, 2, 3⟩ ⟨0, 0, 0, 1⟩).orientation = Quat.mk 0 0 0 1
    ∧ (bodyFrameTarget ⟨1, 2, 3⟩ ⟨0, 0, 0, 1⟩ ⟨⟨1, 2, 3⟩, ⟨0, 0, 0, 1⟩⟩).x
        / (bodyFrameTarget ⟨1, 2, 3⟩ ⟨0, 0, 0, 1⟩ ⟨⟨1, 2, 3⟩, ⟨0, 0, 0, 1⟩⟩).w = 0
    ∧ (bodyFrameTarget ⟨1, 2, 3⟩ ⟨0, 0, 0, 1⟩ ⟨⟨1, 2, 3⟩, ⟨0, 0, 0, 1⟩⟩).y
        / (bodyFrameTarget ⟨1, 2, 3⟩ ⟨0, 0, 0, 1⟩ ⟨⟨1, 2, 3⟩, ⟨0, 0, 0, 1⟩⟩).w = 0
    ∧ (bodyFrameTarget ⟨1, 2, 3⟩ ⟨0, 0, 0, 1⟩ ⟨⟨1, 2, 3⟩, ⟨0, 0, 0, 1⟩⟩).z
        / (bodyFrameTarget ⟨1, 2, 3⟩ ⟨0, 0, 0, 1⟩ ⟨⟨1, 2, 3⟩, ⟨0, 0, 0, 1⟩⟩).w = 0
    ∧ (euler_from_quaternion ⟨0, 0, 0, 1⟩).2.2
        = (euler_from_quaternion (Pose.mk ⟨1, 2, 3⟩ ⟨0, 0, 0, 1⟩).orientation).2.2 :=
  ⟨by norm_num [qnorm2], rfl, rfl,
    C4_identity_round_trip ⟨1, 2, 3⟩ ⟨0, 0, 0, 1⟩ ⟨⟨1, 2, 3⟩, ⟨0, 0, 0, 1⟩⟩
      (by norm_num [qnorm2]) rfl rfl⟩

end Crazyflie
